import Mathlib

/-!
Shallow embedding of the BioLLM orchestration pipeline
(file biollm_model.py, class BioLLM) and verification of the
spec claims about it.

Conventions of the embedding:
- Python dicts returned by the stage adapters always carry the same keys,
  so each is a Lean structure; a key whose value may be Python None is an
  Option field (none = None). A key that a dict may simply lack is also an
  Option field set to none by every constructor that omits it.
- The four external capabilities (speech model, translate model, RAG HTTP
  endpoint, bio LLM model) are modelled as oracle parameters: an inductive
  describing every observable outcome of the call site (exception raised,
  result object with a data attribute, result object without one).
- Exceptions caught by the source are the failure constructors of the
  oracles; the adapters are total functions, mirroring that each adapter
  catches internally and returns a dict.
-/

namespace BioLLM

/-- Python value that can sit in the data field of the RAG JSON response:
either a JSON string or a JSON object (only its data entry is ever read,
via rag_result.get, so the object is modelled by that entry). -/
inductive PyVal where
  | pstr (s : String)
  | pdict (dataEntry : Option String)
deriving DecidableEq, Repr

/-- Python str coercion of a value that is either a string or None,
as produced by an f-string interpolation. -/
def pyStr : Option String → String
  | none => "None"
  | some s => s

/-- Python truthiness of an optional string: None and the empty string are
falsy, as tested by the `if not text` style checks in process_pipeline. -/
def pyTruthy : Option String → Bool
  | none => false
  | some s => s != ""

/-- Outcome of speech_recognition_model.run in speech_recognition:
an exception (failure), a result object with a data dict (structured,
fields text and language each possibly absent), or a result object with
no data attribute that is coerced with str (raw). -/
inductive SpeechResult where
  | failure (msg : String)
  | structured (text : Option String) (language : Option String)
  | raw (s : String)
deriving DecidableEq, Repr

/-- Outcome of translate_model.run or bio_llm_model.run: an exception
(failure), a result object with a data attribute (withData), or a result
object without one (raw carries its str coercion). -/
inductive ModelResult where
  | failure (msg : String)
  | withData (d : String)
  | raw (s : String)
deriving DecidableEq, Repr

/-- Outcome of the requests.post call in process_rag_query:
a requests.exceptions.RequestException (requestError, also covering
raise_for_status), any other exception such as a JSON decode error
(otherError), or a decoded JSON body (ok) with its status field
(none = key absent), the truthiness of its completed field, and its
data field (none = key absent). -/
inductive HttpResult where
  | requestError (msg : String)
  | otherError (msg : String)
  | ok (status : Option String) (completed : Bool) (data : Option PyVal)
deriving DecidableEq, Repr

/-- Return dict of process_text and speech_recognition. -/
structure InputData where
  text : Option String
  source_language : Option String
  status : String
  message : String
deriving DecidableEq, Repr

/-- Return dict of translate_text. -/
structure TranslatedData where
  translated_text : Option String
  status : String
  message : String
deriving DecidableEq, Repr

/-- Return dict of process_rag_query. The source only ever sets the
rag_result key; status and message record that the dict carries no such
keys (none = key absent). -/
structure RagData where
  rag_result : PyVal
  status : Option String
  message : Option String
deriving DecidableEq, Repr

/-- Return dict of process_with_bio_llm. -/
structure BioResult where
  result : Option String
  status : String
  message : String
deriving DecidableEq, Repr

/-- BioLLM.process_text: always succeeds, echoing text and language. -/
def process_text (text source_language : String) : InputData :=
  { text := some text
    source_language := some source_language
    status := "success"
    message := "Successfully processed text in " ++ source_language }

/-- BioLLM.speech_recognition: runs the speech model and normalizes the
result; on a structured result the text defaults to the empty string and
the language to en when the keys are absent; on a raw result the whole
value is the text and the language is en; an exception yields an error
dict with text and source_language both None. -/
def speech_recognition : SpeechResult → InputData
  | .failure msg =>
    { text := none
      source_language := none
      status := "error"
      message := "Speech recognition failed: " ++ msg }
  | .structured t l =>
    { text := some (t.getD "")
      source_language := some (l.getD "en")
      status := "success"
      message := "Successfully transcribed audio" }
  | .raw s =>
    { text := some s
      source_language := some "en"
      status := "success"
      message := "Successfully transcribed audio" }

/-- BioLLM.translate_text: reads text and source_language from the input
dict, short-circuits to an identity success when the source language
equals the target language, otherwise invokes the translate model
(oracle trO); on success with a data attribute the translation is that
data, without one the input text is kept; on an exception the input text
is kept with an error status. -/
def translate_text (trO : ModelResult) (input_data : InputData)
    (target_language : String) : TranslatedData :=
  let text := input_data.text
  let source_language := input_data.source_language
  if source_language = some target_language then
    { translated_text := text
      status := "success"
      message := "No translation needed - same language" }
  else
    match trO with
    | .failure msg =>
      { translated_text := text
        status := "error"
        message := "Translation failed: " ++ msg }
    | .withData d =>
      { translated_text := some d
        status := "success"
        message := "Successfully translated from " ++ pyStr source_language
          ++ " to " ++ target_language }
    | .raw _ =>
      { translated_text := text
        status := "success"
        message := "Successfully translated from " ++ pyStr source_language
          ++ " to " ++ target_language }

/-- The fixed RAG endpoint URL used by process_rag_query. -/
def RAG_URL : String :=
  "https://models.aixplain.com/api/v2/execute/67dee7599bd803001dba3ca8"

/-- Parameters of the requests.post call made by process_rag_query.
The source passes url, headers and json only; the timeout keyword is not
supplied, so the timeout field of the issued request is none
(the requests library default, meaning no bound). -/
structure RagHttpRequest where
  url : String
  query : String
  category : String
  timeout : Option Nat
deriving DecidableEq, Repr

/-- The request process_rag_query issues: the fixed URL, the query as the
data field, the category as an equality filter, and no timeout keyword. -/
def ragHttpRequest (query category : String) : RagHttpRequest :=
  { url := RAG_URL, query := query, category := category, timeout := none }

/-- BioLLM.process_rag_query: posts the search request (oracle httpO maps
the issued request to its outcome); a body is accepted only when its
status field is the string SUCCESS and its completed field is truthy, in
which case rag_result is the data field (empty string when absent); any
other body, and any exception, yields a dict whose only key rag_result
holds an error message string. -/
def process_rag_query (httpO : RagHttpRequest → HttpResult)
    (query category : String) : RagData :=
  match httpO (ragHttpRequest query category) with
  | .requestError msg =>
    { rag_result := .pstr ("Request error: " ++ msg)
      status := none, message := none }
  | .otherError msg =>
    { rag_result := .pstr ("Unexpected error: " ++ msg)
      status := none, message := none }
  | .ok st completed data =>
    if st = some "SUCCESS" ∧ completed = true then
      { rag_result := data.getD (.pstr ""), status := none, message := none }
    else
      { rag_result :=
          .pstr ("RAG query failed with status: " ++ st.getD "UNKNOWN")
        status := none, message := none }

/-- The error message process_rag_query stores under rag_result when the
HTTP outcome is not an accepted success response, one case per failure
branch of the source (RequestException handler, generic exception
handler, and a decoded body without SUCCESS status and truthy completed
flag); none when the body is accepted. -/
def ragFailureMsg : HttpResult → Option String
  | .requestError msg => some ("Request error: " ++ msg)
  | .otherError msg => some ("Unexpected error: " ++ msg)
  | .ok st completed _ =>
    if st = some "SUCCESS" ∧ completed = true then none
    else some ("RAG query failed with status: " ++ st.getD "UNKNOWN")

/-- Stringified generation parameters of process_with_bio_llm, with the
defaults of its keyword arguments (str applied to 1.0, 0.9, 50, 100). -/
structure BioParams where
  temperature : String := "1.0"
  top_p : String := "0.9"
  top_k : String := "50"
  max_tokens : String := "100"
  context : Option String := none
deriving DecidableEq, Repr

/-- Payload of the bio_llm_model.run call in process_with_bio_llm. -/
structure GenRequest where
  data : Option String
  temperature : String
  top_p : String
  top_k : String
  max_tokens : String
  context : String
deriving DecidableEq, Repr

/-- The default system prompt applied when the caller supplies no context
(or an empty one). -/
def default_context : String :=
  "You are an expert and experienced from the healthcare and biomedical domain with extensive medical knowledge and practical experience. Your name is OpenBioLLM, and you were developed by Saama AI Labs. who\x27s willing to help answer the user\x27s query with explanation. In your explanation, leverage your deep medical expertise such as relevant anatomical structures, physiological processes, diagnostic criteria, treatment guidelines, or other pertinent medical concepts. Use precise medical terminology while still aiming to make the explanation clear and accessible to a general audience."

/-- The retrieved-context string process_with_bio_llm extracts from the
rag_data dict: empty when no rag_data was passed; the data entry of a
dict-shaped rag_result (empty when absent); the str coercion of any other
rag_result, which for a string is the string itself. -/
def rag_context_of : Option RagData → String
  | none => ""
  | some rd =>
    match rd.rag_result with
    | .pstr s => s
    | .pdict d => d.getD ""

/-- The combined generation input of process_with_bio_llm: when the
retrieved context is truthy (non-empty) the translated text is
interpolated with the Additional context header, otherwise the translated
text is passed through unchanged (possibly None). -/
def combined_input_of (translated_text : Option String)
    (rag_context : String) : Option String :=
  if rag_context ≠ "" then
    some (pyStr translated_text ++ "\n\nAdditional context: " ++ rag_context)
  else translated_text

/-- BioLLM.process_with_bio_llm: builds the combined input from the
translated text and the rag data, applies the default system prompt when
the caller context is None or empty, and runs the bio LLM (oracle genO
maps the issued request to its outcome); an exception yields an error
dict with a None result. -/
def process_with_bio_llm (genO : GenRequest → ModelResult)
    (text_data : TranslatedData) (rag_data : Option RagData)
    (p : BioParams) : BioResult :=
  let translated_text := text_data.translated_text
  let rag_context := rag_context_of rag_data
  let combined_input := combined_input_of translated_text rag_context
  let ctx :=
    match p.context with
    | none => default_context
    | some c => if c = "" then default_context else c
  match genO { data := combined_input, temperature := p.temperature,
               top_p := p.top_p, top_k := p.top_k,
               max_tokens := p.max_tokens, context := ctx } with
  | .failure msg =>
    { result := none
      status := "error"
      message := "BioLLM processing failed: " ++ msg }
  | .withData d =>
    { result := some d
      status := "success"
      message := "Successfully processed with BioLLM" }
  | .raw s =>
    { result := some s
      status := "success"
      message := "Successfully processed with BioLLM" }

/-- The steps dict of the pipeline response; each stage key is absent
(none) until its stage has executed. -/
structure PipelineSteps where
  input_processing : Option InputData := none
  translation : Option TranslatedData := none
  rag_processing : Option RagData := none
  bio_llm_processing : Option BioResult := none
deriving DecidableEq, Repr

/-- The response dict of process_pipeline; the message key is absent
(none) until the pipeline finishes or fails. -/
structure PipelineResponse where
  status : String
  steps : PipelineSteps
  message : Option String := none
deriving DecidableEq, Repr

/-- The except branch of process_pipeline: status error, the steps
accumulated so far, and the Pipeline failed message wrapping the raised
ValueError text. -/
def pipelineError (steps : PipelineSteps) (e : String) : PipelineResponse :=
  { status := "error", steps := steps, message := some ("Pipeline failed: " ++ e) }

/-- The tail of process_pipeline after input processing succeeds without
raising: records the input dict, translates only when the detected source
language differs from the literal en (otherwise an inline no-op success
dict), runs RAG only when both rag_query and rag_category are truthy,
always runs the bio LLM, and unconditionally sets the final status to
success. -/
def pipelineAfterInput (trO : ModelResult) (httpO : RagHttpRequest → HttpResult)
    (genO : GenRequest → ModelResult) (rag_query rag_category : Option String)
    (target_language : String) (bio_llm_params : Option BioParams)
    (input_data : InputData) : PipelineResponse :=
  let steps1 : PipelineSteps := { input_processing := some input_data }
  let source_lang := input_data.source_language
  let translated_data :=
    if source_lang ≠ some "en" then
      translate_text trO input_data target_language
    else
      { translated_text := input_data.text
        status := "success"
        message := "No translation needed - source language is English" }
  let steps2 := { steps1 with translation := some translated_data }
  let rag_data : Option RagData :=
    if pyTruthy rag_query ∧ pyTruthy rag_category then
      some (process_rag_query httpO (rag_query.getD "") (rag_category.getD ""))
    else none
  let steps3 := { steps2 with rag_processing := rag_data }
  let result := process_with_bio_llm genO translated_data rag_data
    (bio_llm_params.getD {})
  let steps4 := { steps3 with bio_llm_processing := some result }
  { status := "success", steps := steps4
    message := some "Pipeline completed successfully" }

/-- BioLLM.process_pipeline: validates the input arguments (raising a
ValueError, caught by its own except branch, on missing text, missing
source language, missing audio path, or an unrecognized input type),
performs input ingestion, and hands over to the rest of the pipeline.
A speech input never raises: speech_recognition converts its own failure
to an error dict and the pipeline continues with it. -/
def process_pipeline (speechO : SpeechResult) (trO : ModelResult)
    (httpO : RagHttpRequest → HttpResult) (genO : GenRequest → ModelResult)
    (input_type : String) (text : Option String)
    (source_language : Option String) (audio_path : Option String)
    (rag_query : Option String) (rag_category : Option String)
    (target_language : String) (bio_llm_params : Option BioParams) :
    PipelineResponse :=
  if input_type = "text" then
    if pyTruthy text then
      if pyTruthy source_language then
        pipelineAfterInput trO httpO genO rag_query rag_category
          target_language bio_llm_params
          (process_text (text.getD "") (source_language.getD ""))
      else pipelineError {} "Source language must be provided for text input"
    else pipelineError {} "Text input requires \x27text\x27 parameter"
  else if input_type = "speech" then
    if pyTruthy audio_path then
      pipelineAfterInput trO httpO genO rag_query rag_category
        target_language bio_llm_params (speech_recognition speechO)
    else pipelineError {} "Speech input requires \x27audio_path\x27 parameter"
  else
    pipelineError {} "Invalid input type. Choose \x27text\x27 or \x27speech\x27"

/-! ### Helper lemmas -/

/-- A string append whose left part is non-empty is non-empty. -/
theorem append_left_ne_empty (a b : String) (h : a.data ≠ []) : a ++ b ≠ "" := by
  intro hab
  apply h
  have hd : a.data ++ b.data = ([] : List Char) := by
    rw [← String.data_append, hab]
  exact (List.append_eq_nil.mp hd).1

/-- Reduction of process_pipeline on a valid text input. -/
theorem process_pipeline_text_valid (speechO : SpeechResult) (trO : ModelResult)
    (httpO : RagHttpRequest → HttpResult) (genO : GenRequest → ModelResult)
    (text source_language audio_path rag_query rag_category : Option String)
    (target_language : String) (bio_llm_params : Option BioParams)
    (htext : pyTruthy text = true) (hsl : pyTruthy source_language = true) :
    process_pipeline speechO trO httpO genO "text" text source_language
      audio_path rag_query rag_category target_language bio_llm_params
    = pipelineAfterInput trO httpO genO rag_query rag_category target_language
        bio_llm_params (process_text (text.getD "") (source_language.getD "")) := by
  unfold process_pipeline
  rw [htext, hsl]
  simp

/-- Reduction of process_pipeline on a valid speech input. -/
theorem process_pipeline_speech_valid (speechO : SpeechResult) (trO : ModelResult)
    (httpO : RagHttpRequest → HttpResult) (genO : GenRequest → ModelResult)
    (text source_language audio_path rag_query rag_category : Option String)
    (target_language : String) (bio_llm_params : Option BioParams)
    (ha : pyTruthy audio_path = true) :
    process_pipeline speechO trO httpO genO "speech" text source_language
      audio_path rag_query rag_category target_language bio_llm_params
    = pipelineAfterInput trO httpO genO rag_query rag_category target_language
        bio_llm_params (speech_recognition speechO) := by
  unfold process_pipeline
  rw [ha]
  simp

/-- Once input ingestion has not raised, the pipeline always finishes with
overall status success and a generation entry, whatever the stage results. -/
theorem pipelineAfterInput_succeeds (trO : ModelResult)
    (httpO : RagHttpRequest → HttpResult) (genO : GenRequest → ModelResult)
    (rag_query rag_category : Option String) (target_language : String)
    (bio_llm_params : Option BioParams) (input_data : InputData) :
    (pipelineAfterInput trO httpO genO rag_query rag_category target_language
      bio_llm_params input_data).status = "success"
    ∧ (pipelineAfterInput trO httpO genO rag_query rag_category target_language
      bio_llm_params input_data).steps.bio_llm_processing.isSome = true
    ∧ (pipelineAfterInput trO httpO genO rag_query rag_category target_language
      bio_llm_params input_data).message = some "Pipeline completed successfully" :=
  ⟨rfl, rfl, rfl⟩

/-- The rag entry of the steps dict after a completed pipeline run. -/
theorem pipelineAfterInput_rag (trO : ModelResult)
    (httpO : RagHttpRequest → HttpResult) (genO : GenRequest → ModelResult)
    (rag_query rag_category : Option String) (target_language : String)
    (bio_llm_params : Option BioParams) (input_data : InputData) :
    (pipelineAfterInput trO httpO genO rag_query rag_category target_language
      bio_llm_params input_data).steps.rag_processing
    = if pyTruthy rag_query ∧ pyTruthy rag_category then
        some (process_rag_query httpO (rag_query.getD "") (rag_category.getD ""))
      else none :=
  rfl

/-- Behavior of translate_text when the external call raises and the
identity short-circuit does not apply. -/
theorem translate_text_failure (msg : String) (input_data : InputData)
    (target_language : String)
    (h : input_data.source_language ≠ some target_language) :
    translate_text (.failure msg) input_data target_language
    = { translated_text := input_data.text
        status := "error"
        message := "Translation failed: " ++ msg } := by
  simp only [translate_text]
  rw [if_neg h]

/-- Behavior of process_rag_query on a transport-success body whose
status or completed field does not signal success. -/
theorem process_rag_query_ok_fail (httpO : RagHttpRequest → HttpResult)
    (q c : String) (st : Option String) (completed : Bool) (data : Option PyVal)
    (hok : httpO (ragHttpRequest q c) = .ok st completed data)
    (hfail : ¬(st = some "SUCCESS" ∧ completed = true)) :
    process_rag_query httpO q c
    = { rag_result := .pstr ("RAG query failed with status: " ++ st.getD "UNKNOWN")
        status := none, message := none } := by
  unfold process_rag_query
  simp only [hok]
  rw [if_neg hfail]

/-! ### Claim C1 -/

/-- Concrete pipeline run for claim C1: speech recognition fails with a
transport error while the translate and generation oracles succeed and
no RAG arguments are supplied. -/
def c1run : PipelineResponse :=
  process_pipeline (.failure "transport down") (.withData "t")
    (fun _ => .requestError "x") (fun _ => .withData "answer")
    "speech" none none (some "a.wav") none none "en" none

/-- C1 counterexample: when speech recognition returns an error result
the pipeline does not abort: the input processing entry has status error,
yet the overall status is success and the translation and generation
stages both executed, refuting the claimed abort on any Input Ingestion
failure. -/
theorem C1_counterexample :
    c1run.steps.input_processing.map InputData.status = some "error"
    ∧ c1run.status = "success"
    ∧ c1run.steps.translation.isSome = true
    ∧ c1run.steps.bio_llm_processing.isSome = true := by
  decide

/-- C1 amended: only the argument-validation failures abort the pipeline
before any capability is contacted: a text input with falsy text or falsy
source language, or a speech input with a falsy audio path, yields an
error response with an entirely empty steps map; an error result from
speech recognition itself does not abort the pipeline. -/
theorem C1_amended (speechO : SpeechResult) (trO : ModelResult)
    (httpO : RagHttpRequest → HttpResult) (genO : GenRequest → ModelResult)
    (input_type : String) (text source_language audio_path : Option String)
    (rag_query rag_category : Option String) (target_language : String)
    (bio_llm_params : Option BioParams)
    (h : (input_type = "text"
            ∧ (pyTruthy text = false ∨ pyTruthy source_language = false))
       ∨ (input_type = "speech" ∧ pyTruthy audio_path = false)) :
    (process_pipeline speechO trO httpO genO input_type text source_language
      audio_path rag_query rag_category target_language bio_llm_params).status
      = "error"
    ∧ (process_pipeline speechO trO httpO genO input_type text source_language
      audio_path rag_query rag_category target_language bio_llm_params).steps
      = {} := by
  rcases h with ⟨ht, hv⟩ | ⟨hs, ha⟩
  · subst ht
    unfold process_pipeline
    rcases hv with hv | hv
    · rw [hv]
      simp [pipelineError]
    · cases hpt : pyTruthy text
      · simp [pipelineError]
      · rw [hv]
        simp [pipelineError]
  · subst hs
    unfold process_pipeline
    rw [ha]
    simp [pipelineError]

/-- C1 witness: the amended claim at a text input with no text. -/
theorem C1_witness :
    (process_pipeline (.raw "") (.raw "") (fun _ => .requestError "x")
      (fun _ => .raw "") "text" none (some "en") none none none "en" none).status
      = "error"
    ∧ (process_pipeline (.raw "") (.raw "") (fun _ => .requestError "x")
      (fun _ => .raw "") "text" none (some "en") none none none "en" none).steps
      = {} :=
  C1_amended (.raw "") (.raw "") (fun _ => .requestError "x") (fun _ => .raw "")
    "text" none (some "en") none none none "en" none (Or.inl ⟨rfl, Or.inl rfl⟩)

/-! ### Claim C2 -/

/-- Concrete pipeline run for claim C2: a valid text input whose
generation call fails. -/
def c2run : PipelineResponse :=
  process_pipeline (.raw "") (.withData "t") (fun _ => .requestError "x")
    (fun _ => .failure "llm down") "text" (some "chest pain") (some "en")
    none none none "en" none

/-- C2 counterexample: the generation stage result has status error, yet
the overall pipeline status is success, refuting the claim that a
Generation-stage failure makes the overall status not Success. -/
theorem C2_counterexample :
    c2run.steps.bio_llm_processing.map BioResult.status = some "error"
    ∧ c2run.status = "success" := by
  decide

/-- C2 amended: every pipeline invocation that passes input argument
validation finishes with overall status success and a recorded
generation entry, regardless of the outcome of the translation,
retrieval, and generation calls; a Generation-stage error is recorded
only in its stage entry and never changes the overall status. -/
theorem C2_amended (speechO : SpeechResult) (trO : ModelResult)
    (httpO : RagHttpRequest → HttpResult) (genO : GenRequest → ModelResult)
    (input_type : String) (text source_language audio_path : Option String)
    (rag_query rag_category : Option String) (target_language : String)
    (bio_llm_params : Option BioParams)
    (h : (input_type = "text" ∧ pyTruthy text = true
            ∧ pyTruthy source_language = true)
       ∨ (input_type = "speech" ∧ pyTruthy audio_path = true)) :
    (process_pipeline speechO trO httpO genO input_type text source_language
      audio_path rag_query rag_category target_language bio_llm_params).status
      = "success"
    ∧ (process_pipeline speechO trO httpO genO input_type text source_language
      audio_path rag_query rag_category target_language
      bio_llm_params).steps.bio_llm_processing.isSome = true := by
  rcases h with ⟨ht, htext, hsl⟩ | ⟨hs, ha⟩
  · subst ht
    rw [process_pipeline_text_valid speechO trO httpO genO text source_language
      audio_path rag_query rag_category target_language bio_llm_params htext hsl]
    exact ⟨(pipelineAfterInput_succeeds _ _ _ _ _ _ _ _).1,
      (pipelineAfterInput_succeeds _ _ _ _ _ _ _ _).2.1⟩
  · subst hs
    rw [process_pipeline_speech_valid speechO trO httpO genO text source_language
      audio_path rag_query rag_category target_language bio_llm_params ha]
    exact ⟨(pipelineAfterInput_succeeds _ _ _ _ _ _ _ _).1,
      (pipelineAfterInput_succeeds _ _ _ _ _ _ _ _).2.1⟩

/-- C2 witness: the amended claim at a valid text input whose generation
call fails. -/
theorem C2_witness :
    (process_pipeline (.raw "") (.withData "t") (fun _ => .requestError "x")
      (fun _ => .failure "down") "text" (some "hi") (some "en") none none
      none "en" none).status = "success" :=
  (C2_amended (.raw "") (.withData "t") (fun _ => .requestError "x")
    (fun _ => .failure "down") "text" (some "hi") (some "en") none none
    none "en" none (Or.inl ⟨rfl, rfl, rfl⟩)).1

/-! ### Claim C3 -/

/-- Concrete retrieval result for claim C3: the endpoint answered with a
non-success status. -/
def c3rag : RagData :=
  process_rag_query (fun _ => .ok (some "FAILED") false none) "q" "c"

/-- C3 counterexample: a failed retrieval yields a rag_result holding the
error message string, not the empty string and not a status field equal
to Error, and that message is concatenated into the generation input
under the Additional context header, refuting the claims of an
empty-string payload contributing no text to the prompt. -/
theorem C3_counterexample :
    c3rag.rag_result = .pstr "RAG query failed with status: FAILED"
    ∧ c3rag.status = none
    ∧ combined_input_of (some "t") (rag_context_of (some c3rag))
      = some "t\n\nAdditional context: RAG query failed with status: FAILED" := by
  decide

/-- C3 amended: for every failing retrieval outcome — a transport
failure (RequestException), any other exception, or a decoded body whose
status is not SUCCESS or whose completed flag is false — the retrieval
entry is a dict whose rag_result is the non-empty error message string
(with no status or message keys), that message is concatenated into the
generation input under the Additional context header, and the pipeline
still runs generation and finishes with overall status success when the
generation call succeeds. -/
theorem C3_amended (httpO : RagHttpRequest → HttpResult)
    (q c t d msg : String) (speechO : SpeechResult) (trO : ModelResult)
    (text source_language audio_path : Option String) (target_language : String)
    (bio_llm_params : Option BioParams)
    (hmsg : ragFailureMsg (httpO (ragHttpRequest q c)) = some msg)
    (htext : pyTruthy text = true) (hsl : pyTruthy source_language = true)
    (hq : pyTruthy (some q) = true) (hc : pyTruthy (some c) = true) :
    process_rag_query httpO q c
      = { rag_result := .pstr msg, status := none, message := none }
    ∧ msg ≠ ""
    ∧ combined_input_of (some t) (rag_context_of (some (process_rag_query httpO q c)))
      = some (t ++ "\n\nAdditional context: " ++ msg)
    ∧ (process_pipeline speechO trO httpO (fun _ => .withData d) "text" text
        source_language audio_path (some q) (some c) target_language
        bio_llm_params).status = "success"
    ∧ (process_pipeline speechO trO httpO (fun _ => .withData d) "text" text
        source_language audio_path (some q) (some c) target_language
        bio_llm_params).steps.rag_processing
      = some (process_rag_query httpO q c) := by
  have key : process_rag_query httpO q c
      = { rag_result := .pstr msg, status := none, message := none }
      ∧ msg ≠ "" := by
    cases hres : httpO (ragHttpRequest q c) with
    | requestError e =>
      rw [hres] at hmsg
      simp only [ragFailureMsg, Option.some.injEq] at hmsg
      subst hmsg
      refine ⟨?_, append_left_ne_empty _ _ (by decide)⟩
      unfold process_rag_query
      rw [hres]
    | otherError e =>
      rw [hres] at hmsg
      simp only [ragFailureMsg, Option.some.injEq] at hmsg
      subst hmsg
      refine ⟨?_, append_left_ne_empty _ _ (by decide)⟩
      unfold process_rag_query
      rw [hres]
    | ok st completed data =>
      rw [hres] at hmsg
      simp only [ragFailureMsg] at hmsg
      by_cases hcond : st = some "SUCCESS" ∧ completed = true
      · rw [if_pos hcond] at hmsg
        exact absurd hmsg (by simp)
      · rw [if_neg hcond, Option.some.injEq] at hmsg
        subst hmsg
        exact ⟨process_rag_query_ok_fail httpO q c st completed data hres hcond,
          append_left_ne_empty _ _ (by decide)⟩
  refine ⟨key.1, key.2, ?_, ?_, ?_⟩
  · rw [key.1]
    simp only [rag_context_of, combined_input_of]
    rw [if_pos key.2]
    rfl
  · rw [process_pipeline_text_valid speechO trO httpO (fun _ => .withData d)
      text source_language audio_path (some q) (some c) target_language
      bio_llm_params htext hsl]
    exact (pipelineAfterInput_succeeds _ _ _ _ _ _ _ _).1
  · rw [process_pipeline_text_valid speechO trO httpO (fun _ => .withData d)
      text source_language audio_path (some q) (some c) target_language
      bio_llm_params htext hsl]
    rw [pipelineAfterInput_rag]
    rw [if_pos ⟨hq, hc⟩]
    rfl

/-- C3 witness: the amended claim at a concrete transport failure of the
retrieval call inside a pipeline whose generation call succeeds: the
transport error message lands in the generation input and the run ends
with overall status success. -/
theorem C3_witness :
    combined_input_of (some "t")
      (rag_context_of (some (process_rag_query
        (fun _ => .requestError "timeout") "angina" "general")))
      = some "t\n\nAdditional context: Request error: timeout"
    ∧ (process_pipeline (.raw "") (.withData "t")
        (fun _ => .requestError "timeout") (fun _ => .withData "ans")
        "text" (some "chest pain") (some "en") none (some "angina")
        (some "general") "en" none).status = "success" :=
  ⟨(C3_amended (fun _ => .requestError "timeout") "angina" "general" "t"
      "ans" "Request error: timeout" (.raw "") (.withData "t")
      (some "chest pain") (some "en") none "en" none (by decide) rfl rfl
      rfl rfl).2.2.1,
    (C3_amended (fun _ => .requestError "timeout") "angina" "general" "t"
      "ans" "Request error: timeout" (.raw "") (.withData "t")
      (some "chest pain") (some "en") none "en" none (by decide) rfl rfl
      rfl rfl).2.2.2.1⟩

/-! ### Claim C5 -/

/-- Concrete pipeline run for claim C5: a RAG category is supplied but no
RAG query. -/
def c5run : PipelineResponse :=
  process_pipeline (.raw "") (.withData "t") (fun _ => .requestError "x")
    (fun _ => .withData "ans") "text" (some "chest pain") (some "en") none
    none (some "general") "en" none

/-- C5 counterexample: the caller supplied a RAG category but the steps
map has no retrieval entry (and no fallback to the translated text took
place), refuting the claim that the Retrieval stage executes whenever a
category is supplied. -/
theorem C5_counterexample :
    c5run.steps.rag_processing = none ∧ c5run.status = "success" := by
  decide

/-- C5 amended: on a valid text input the retrieval stage executes if and
only if both rag_query and rag_category are truthy, and when it executes
its query is always the caller rag_query, never the translated text. -/
theorem C5_amended (speechO : SpeechResult) (trO : ModelResult)
    (httpO : RagHttpRequest → HttpResult) (genO : GenRequest → ModelResult)
    (text source_language audio_path : Option String)
    (rag_query rag_category : Option String) (target_language : String)
    (bio_llm_params : Option BioParams)
    (htext : pyTruthy text = true) (hsl : pyTruthy source_language = true) :
    (process_pipeline speechO trO httpO genO "text" text source_language
      audio_path rag_query rag_category target_language
      bio_llm_params).steps.rag_processing
    = if pyTruthy rag_query ∧ pyTruthy rag_category then
        some (process_rag_query httpO (rag_query.getD "") (rag_category.getD ""))
      else none := by
  rw [process_pipeline_text_valid speechO trO httpO genO text source_language
    audio_path rag_query rag_category target_language bio_llm_params htext hsl]
  exact pipelineAfterInput_rag _ _ _ _ _ _ _ _

/-- C5 witness: the amended claim at a run with both RAG arguments
supplied; the retrieval entry is the RAG call on the caller query. -/
theorem C5_witness :
    (process_pipeline (.raw "") (.withData "t") (fun _ => .requestError "x")
      (fun _ => .withData "ans") "text" (some "chest pain") (some "en") none
      (some "angina") (some "general") "en" none).steps.rag_processing
    = some (process_rag_query (fun _ => .requestError "x") "angina" "general") := by
  rw [C5_amended (.raw "") (.withData "t") (fun _ => .requestError "x")
    (fun _ => .withData "ans") (some "chest pain") (some "en") none
    (some "angina") (some "general") "en" none rfl rfl]
  rfl

/-! ### Claim C8 -/

/-- Concrete pipeline run for claim C8: a speech response with text but
no language field, while the caller supplied the source language fr. -/
def c8run : PipelineResponse :=
  process_pipeline (.structured (some "hello") none) (.withData "t")
    (fun _ => .requestError "x") (fun _ => .withData "ans")
    "speech" none (some "fr") (some "a.wav") none none "en" none

/-- C8 counterexample: the speech response carries no language field and
the caller supplied fr as the source language, yet the recorded detected
language is en, refuting the claimed fallback to the caller-supplied
source language. -/
theorem C8_counterexample :
    c8run.steps.input_processing
      = some { text := some "hello", source_language := some "en"
               status := "success", message := "Successfully transcribed audio" }
    ∧ c8run.steps.input_processing.map InputData.source_language
      ≠ some (some "fr") := by
  decide

/-- C8 amended: when the speech response carries no language field the
detected language defaults directly to en, and a speech pipeline run is
entirely independent of the caller-supplied source language, which is
never consulted as a fallback. -/
theorem C8_amended :
    (∀ t : Option String,
      (speech_recognition (.structured t none)).source_language = some "en")
    ∧ (∀ s : String, (speech_recognition (.raw s)).source_language = some "en")
    ∧ (∀ (speechO : SpeechResult) (trO : ModelResult)
        (httpO : RagHttpRequest → HttpResult) (genO : GenRequest → ModelResult)
        (text sl1 sl2 audio_path rag_query rag_category : Option String)
        (target_language : String) (bio_llm_params : Option BioParams),
        process_pipeline speechO trO httpO genO "speech" text sl1 audio_path
          rag_query rag_category target_language bio_llm_params
        = process_pipeline speechO trO httpO genO "speech" text sl2 audio_path
          rag_query rag_category target_language bio_llm_params) :=
  ⟨fun _ => rfl, fun _ => rfl,
    fun _ _ _ _ _ _ _ _ _ _ _ _ => rfl⟩

/-! ### Claim C4 -/

/-- C4 counterexample: on a transport failure the retrieval stage result
is a dict whose only key is rag_result; it carries no status key equal to
error and no message key at all, refuting the claim that every stage
failure yields a StageResult with a status field equal to Error and a
non-empty message field. -/
theorem C4_counterexample :
    (process_rag_query (fun _ => .requestError "connection refused") "q" "c").status
      ≠ some "error"
    ∧ (process_rag_query (fun _ => .requestError "connection refused") "q" "c").status
      = none
    ∧ (process_rag_query (fun _ => .requestError "connection refused") "q" "c").message
      = none := by
  decide

/-- C4 amended: speech recognition, translation and generation do return,
on an internal failure, a result dict with status error and a non-empty
message, and no stage propagates the exception (every adapter is a total
function); the retrieval stage also never propagates, but its failure
dict carries only a non-empty rag_result error string and has neither a
status key nor a message key. -/
theorem C4_amended :
    (∀ e : String, (speech_recognition (.failure e)).status = "error"
      ∧ (speech_recognition (.failure e)).message ≠ "")
    ∧ (∀ (e : String) (input_data : InputData) (tl : String),
        input_data.source_language ≠ some tl →
        (translate_text (.failure e) input_data tl).status = "error"
        ∧ (translate_text (.failure e) input_data tl).message ≠ "")
    ∧ (∀ (e : String) (text_data : TranslatedData) (rag_data : Option RagData)
        (p : BioParams),
        (process_with_bio_llm (fun _ => .failure e) text_data rag_data p).status
          = "error"
        ∧ (process_with_bio_llm (fun _ => .failure e) text_data rag_data p).message
          ≠ "")
    ∧ (∀ (e q c : String),
        process_rag_query (fun _ => .requestError e) q c
          = { rag_result := .pstr ("Request error: " ++ e)
              status := none, message := none }
        ∧ "Request error: " ++ e ≠ "") := by
  refine ⟨fun e => ⟨rfl, append_left_ne_empty _ _ (by decide)⟩,
    fun e input_data tl h => ?_,
    fun e text_data rag_data p => ⟨rfl, append_left_ne_empty _ _ (by decide)⟩,
    fun e q c => ⟨rfl, append_left_ne_empty _ _ (by decide)⟩⟩
  rw [translate_text_failure e input_data tl h]
  exact ⟨rfl, append_left_ne_empty _ _ (by decide)⟩

/-- C4 witness: the translation conjunct of the amended claim at a
concrete degraded input. -/
theorem C4_witness :
    (translate_text (.failure "boom")
      { text := some "hola", source_language := some "es"
        status := "success", message := "m" } "en").status = "error" :=
  (C4_amended.2.1 "boom"
    { text := some "hola", source_language := some "es"
      status := "success", message := "m" } "en" (by decide)).1

/-! ### Claim C6 -/

/-- C6 counterexample: empty input text with differing source and target
languages does not short-circuit: the translate model is invoked, so the
stage returns an error status when the call fails and returns the model
output (not the input text) when the call succeeds, refuting the claimed
empty-text identity short-circuit. -/
theorem C6_counterexample :
    (translate_text (.failure "net down")
      { text := some "", source_language := some "fr"
        status := "success", message := "m" } "en").status = "error"
    ∧ (translate_text (.withData "x")
      { text := some "", source_language := some "fr"
        status := "success", message := "m" } "en").translated_text = some "x" := by
  decide

/-- C6 amended: the identity short-circuit applies exactly when the
source language equals the target language: the stage then returns a
Success result whose translated text is the input text, and the result
does not depend on the translate model oracle (no external call is
consulted); an empty input text alone does not short-circuit. -/
theorem C6_amended (o1 o2 : ModelResult) (input_data : InputData)
    (target_language : String)
    (h : input_data.source_language = some target_language) :
    translate_text o1 input_data target_language
      = { translated_text := input_data.text
          status := "success"
          message := "No translation needed - same language" }
    ∧ translate_text o1 input_data target_language
      = translate_text o2 input_data target_language := by
  simp only [translate_text]
  rw [if_pos h, if_pos h]
  exact ⟨rfl, rfl⟩

/-- C6 witness: the amended claim at a concrete same-language input. -/
theorem C6_witness :
    translate_text (.failure "z")
      { text := some "chest pain", source_language := some "en"
        status := "success", message := "m" } "en"
      = { translated_text := some "chest pain"
          status := "success"
          message := "No translation needed - same language" } :=
  (C6_amended (.failure "z") (.withData "w")
    { text := some "chest pain", source_language := some "en"
      status := "success", message := "m" } "en" rfl).1

/-! ### Claim C7 -/

/-- C7: when the external translate call fails (and the identity
short-circuit did not apply, so a call was made), the stage returns an
error result whose translated text is the original untranslated input
text. -/
theorem C7_translation_failure_keeps_text (msg : String)
    (input_data : InputData) (target_language : String)
    (h : input_data.source_language ≠ some target_language) :
    translate_text (.failure msg) input_data target_language
      = { translated_text := input_data.text
          status := "error"
          message := "Translation failed: " ++ msg } :=
  translate_text_failure msg input_data target_language h

/-- C7 witness: the claim at a concrete failing translation. -/
theorem C7_witness :
    translate_text (.failure "timeout")
      { text := some "bonjour", source_language := some "fr"
        status := "success", message := "m" } "en"
      = { translated_text := some "bonjour"
          status := "error"
          message := "Translation failed: timeout" } :=
  C7_translation_failure_keeps_text "timeout"
    { text := some "bonjour", source_language := some "fr"
      status := "success", message := "m" } "en" (by decide)

/-! ### Claim C9 -/

/-- C9 counterexample: the retrieval HTTP request is issued with no
timeout keyword at all, refuting the claim that it carries a 30 second
timeout bound. -/
theorem C9_counterexample :
    (ragHttpRequest "q" "c").timeout ≠ some 30
    ∧ (ragHttpRequest "q" "c").timeout = none := by
  decide

/-- C9 amended: every retrieval HTTP request is issued with no timeout
bound (the requests library default), so the call may block
indefinitely; no capability call in the pipeline sets a timeout. -/
theorem C9_amended (query category : String) :
    (ragHttpRequest query category).timeout = none :=
  rfl

/-! ### Claim C10 -/

/-- C10: an input type other than text or speech (such as the audio value
the bundled UI passes) never raises to the caller: the internal
ValueError is caught and converted to a response with status error, an
empty steps map, and a message naming the two accepted input types. -/
theorem C10_invalid_input_type (speechO : SpeechResult) (trO : ModelResult)
    (httpO : RagHttpRequest → HttpResult) (genO : GenRequest → ModelResult)
    (input_type : String) (text source_language audio_path : Option String)
    (rag_query rag_category : Option String) (target_language : String)
    (bio_llm_params : Option BioParams)
    (h1 : input_type ≠ "text") (h2 : input_type ≠ "speech") :
    process_pipeline speechO trO httpO genO input_type text source_language
      audio_path rag_query rag_category target_language bio_llm_params
    = { status := "error", steps := {}
        message := some
          "Pipeline failed: Invalid input type. Choose \x27text\x27 or \x27speech\x27" } := by
  unfold process_pipeline
  rw [if_neg h1, if_neg h2]
  rfl

/-- C10 witness: the claim at the audio input type the bundled UI
passes. -/
theorem C10_witness :
    process_pipeline (.raw "") (.raw "") (fun _ => .requestError "x")
      (fun _ => .raw "") "audio" none (some "en") (some "a.wav")
      none none "en" none
    = { status := "error", steps := {}
        message := some
          "Pipeline failed: Invalid input type. Choose \x27text\x27 or \x27speech\x27" } :=
  C10_invalid_input_type (.raw "") (.raw "") (fun _ => .requestError "x")
    (fun _ => .raw "") "audio" none (some "en") (some "a.wav")
    none none "en" none (by decide) (by decide)

end BioLLM
